import Mathlib

/-!
Shallow embedding of the huddle-node-manager resource control plane.

Python floats are modelled as `ℚ` (all constants in the source are exact
decimals), process lists as `List`, device maps as a four-field structure
(the source dictionary always holds exactly the keys mps/cuda/rocm/cpu),
and fallible operations as `Except String`.  External effects (psutil
reads, the torch/llama runtime calls) enter as explicit parameters or
oracles, so every definition below is executable.
-/

/-! ### Data model (src/scripts/device_detection_test.py) -/

/-- `SystemInfo` dataclass: host snapshot captured by `_get_system_info`. -/
structure SystemInfo where
  platform : String
  cpu_cores : ℕ
  total_memory_gb : ℚ
  available_memory_gb : ℚ
  cpu_percent : ℚ
  disk_free_gb : ℚ
  deriving DecidableEq

/-- `DeviceInfo` dataclass: one candidate backend descriptor. -/
structure DeviceInfo where
  device_type : String
  device_name : String
  memory_gb : ℚ
  performance_tier : String
  supported : Bool
  error_message : Option String := none
  deriving DecidableEq

/-- `ProcessInfo` dataclass: a competing process sample. -/
structure ProcessInfo where
  name : String
  memory_mb : ℚ
  cpu_percent : ℚ
  is_gpu_intensive : Bool
  deriving DecidableEq

/-- `ResourceAllocation` dataclass: the computed allocation plan. -/
structure ResourceAllocation where
  recommended_memory_gb : ℚ
  conservative_memory_gb : ℚ
  memory_fraction : ℚ
  batch_size : ℕ
  attention_heads : ℕ
  hidden_size : ℕ
  use_conservative : Bool
  safety_margin_gb : ℚ
  deriving DecidableEq

/-- The dictionary built by `_detect_all_devices`; it always carries exactly
the keys `mps`, `cuda`, `rocm`, `cpu`. -/
structure DeviceMap where
  mps : DeviceInfo
  cuda : DeviceInfo
  rocm : DeviceInfo
  cpu : DeviceInfo
  deriving DecidableEq

/-! ### Device selection (`DeviceDetector._select_best_device`) -/

/-- The tail of the priority loop after the `mps` entry: `cuda` and `rocm`
are eligible when supported and `available_memory_gb ≥ 6.0`; the `cpu`
entry and the post-loop fallback both return `"cpu"`. -/
def selectAfterMps (st : SystemInfo) (devices : DeviceMap) : String :=
  if devices.cuda.supported && !(st.available_memory_gb < 6) then "cuda"
  else if devices.rocm.supported && !(st.available_memory_gb < 6) then "rocm"
  else if devices.cpu.supported then "cpu"
  else "cpu"

/-- `_select_best_device`: priority order mps → cuda → rocm → cpu.  The mps
entry is skipped when `available/total < 0.25`; the `< 0.4` band and the
`≥ 0.4` branch both return `"mps"` (the band only logs a warning). -/
def select_best_device (st : SystemInfo) (devices : DeviceMap) : String :=
  if devices.mps.supported then
    let available_percent := st.available_memory_gb / st.total_memory_gb
    if available_percent < 1/4 then selectAfterMps st devices
    else if available_percent < 2/5 then "mps"
    else "mps"
  else selectAfterMps st devices

/-! ### Allocation (`DeviceDetector._calculate_resource_allocation`) -/

/-- `sum(p.memory_mb for p in self.other_processes) / 1024`. -/
def other_processes_memory_gb (ps : List ProcessInfo) : ℚ :=
  (ps.map (fun p => p.memory_mb)).sum / 1024

/-- The device-specific base allocation (`base_allocation_gb` local). -/
def base_allocation_gb (best_device : String) (st : SystemInfo) : ℚ :=
  if best_device == "mps" then
    let available_percent := st.available_memory_gb / st.total_memory_gb
    if available_percent < 3/10 then min 2 (st.available_memory_gb * (3/10))
    else if available_percent < 1/2 then min 4 (st.available_memory_gb * (2/5))
    else min 6 (st.available_memory_gb * (1/2))
  else if best_device == "cpu" then min 8 (st.available_memory_gb * (7/10))
  else min 12 (st.available_memory_gb * (3/5))

/-- The `safe_allocation_gb` local: min of base, 70% of available, and
total minus other-process memory minus a 20% margin. -/
def safe_allocation_gb (best_device : String) (st : SystemInfo)
    (ps : List ProcessInfo) : ℚ :=
  min (base_allocation_gb best_device st)
    (min (st.available_memory_gb * (7/10))
      (st.total_memory_gb - other_processes_memory_gb ps
        - st.total_memory_gb * (1/5)))

/-- The `final_allocation_gb` local: clamp to the floor 2.0 then the cap 16.0. -/
def final_allocation_gb (best_device : String) (st : SystemInfo)
    (ps : List ProcessInfo) : ℚ :=
  min (max (safe_allocation_gb best_device st ps) 2) 16

/-- The `use_conservative = any([...])` disjunction, in source order. -/
def use_conservative_flag (best_device : String) (st : SystemInfo)
    (ps : List ProcessInfo) : Bool :=
  decide (st.available_memory_gb < 2)
  || decide ((ps.filter (fun p => p.is_gpu_intensive)).length > 8)
  || decide (st.cpu_percent > 95)
  || decide (final_allocation_gb best_device st ps < 2)
  || (best_device == "mps" && decide (st.available_memory_gb < 3))

/-- `_calculate_resource_allocation` (the returned `ResourceAllocation`).
`cpu_load_factor` is computed in the source but never used and is omitted. -/
def calculate_resource_allocation (best_device : String) (st : SystemInfo)
    (ps : List ProcessInfo) : ResourceAllocation :=
  let final := final_allocation_gb best_device st ps
  let uc := use_conservative_flag best_device st ps
  { recommended_memory_gb := final
    conservative_memory_gb := if uc then min final 6 else final
    memory_fraction := min (final / st.total_memory_gb) (4/5)
    batch_size := if uc then 2 else 4
    attention_heads := if uc then 24 else 32
    hidden_size := if uc then 3072 else 4096
    use_conservative := uc
    safety_margin_gb := st.total_memory_gb * (1/5) }

/-! ### Threshold adjustment (src/scripts/resource_monitor.py,
`ResourceMonitor._adjust_thresholds_for_device`) -/

/-- The `self.thresholds` dictionary of `ResourceMonitor` (its four fixed keys). -/
structure Thresholds where
  memory_warning : ℚ
  memory_critical : ℚ
  cpu_warning : ℚ
  cpu_critical : ℚ
  deriving DecidableEq

/-- The constructor defaults (`__init__`). -/
def defaultThresholds : Thresholds := ⟨6, 3, 80, 90⟩

/-- `_adjust_thresholds_for_device`, as a function of the incoming threshold
dictionary, the detector's `best_device` string and the allocation's
`use_conservative` flag.  The memory keys are overwritten from the device
table, then both are multiplied by 1.2 in conservative mode; the cpu keys
are untouched. -/
def adjust_thresholds_for_device (t : Thresholds) (device : String)
    (use_conservative : Bool) : Thresholds :=
  let t1 :=
    if device == "mps" then { t with memory_warning := 4, memory_critical := 2 }
    else if device == "cpu" then { t with memory_warning := 8, memory_critical := 4 }
    else { t with memory_warning := 6, memory_critical := 3 }
  if use_conservative then
    { t1 with memory_warning := t1.memory_warning * (6/5),
              memory_critical := t1.memory_critical * (6/5) }
  else t1

/-! ### Alert de-duplication (`ResourceMonitor._monitor_loop`, lines 414-446)

A firing is a pair (timestamp, alert key) where the key is the
`f"{alert.resource_type.value}_{alert.level.value}"` string; the loop's
`last_alert_time` dictionary is modelled as a map `String → Option ℚ`.
An emission (history append + callback delivery) happens exactly when the
key is absent or more than 30 seconds old, and only then is the map
updated. -/

/-- The `last_alert_time` lookup/cooldown test of the monitor loop. -/
def shouldEmitAlert (m : String → Option ℚ) (t : ℚ) (k : String) : Bool :=
  match m k with
  | none => true
  | some t0 => decide (t - t0 > 30)

/-- `last_alert_time[alert_key] = current_time` (performed only on emission). -/
def alertUpdate (m : String → Option ℚ) (t : ℚ) (k : String) :
    String → Option ℚ :=
  fun k2 => if k2 == k then some t else m k2

/-- The emission filter of `_monitor_loop`, run over a sequence of alert
firings from a given `last_alert_time` state: returns the emitted firings. -/
def runAlertsFrom (m : String → Option ℚ) : List (ℚ × String) → List (ℚ × String)
  | [] => []
  | e :: rest =>
    if shouldEmitAlert m e.1 e.2 then
      e :: runAlertsFrom (alertUpdate m e.1 e.2) rest
    else runAlertsFrom m rest

/-- The monitor loop starts with an empty `last_alert_time` dictionary. -/
def runAlerts (events : List (ℚ × String)) : List (ℚ × String) :=
  runAlertsFrom (fun _ => none) events

/-- Timestamps of the emitted alerts carrying a given key, in order. -/
def keyTimes (k : String) (l : List (ℚ × String)) : List ℚ :=
  (l.filter (fun e => e.2 == k)).map Prod.fst

/-! ### System probe (`DeviceDetector._get_system_info`)

Each psutil read may fail; the reads a single capture performs are passed
in as `Except` values and the function sequences them exactly as the
source does (memory, cpu sample, disk, then the core count inside the
`SystemInfo` constructor).  `sys.platform` cannot fail. -/

/-- `psutil.virtual_memory()` result (the fields the probe uses), in bytes. -/
structure VirtualMemory where
  total : ℚ
  available : ℚ
  deriving DecidableEq

/-- `psutil.disk_usage('/')` result (the field the probe uses), in bytes. -/
structure DiskUsage where
  free : ℚ
  deriving DecidableEq

/-- The outcomes of the psutil reads one `_get_system_info` call performs. -/
structure ProbeReads where
  virtual_memory : Except String VirtualMemory
  cpu_percent : Except String ℚ
  disk_usage : Except String DiskUsage
  cpu_count : Except String ℕ
  platform : String

/-- `_get_system_info`: the reads are performed directly, with no handler,
so the first failing read propagates out of the capture. -/
def get_system_info (r : ProbeReads) : Except String SystemInfo := do
  let memory ← r.virtual_memory
  let cpu_percent ← r.cpu_percent
  let disk ← r.disk_usage
  let cores ← r.cpu_count
  pure { platform := r.platform
         cpu_cores := cores
         total_memory_gb := memory.total / (1024^3)
         available_memory_gb := memory.available / (1024^3)
         cpu_percent := cpu_percent
         disk_free_gb := disk.free / (1024^3) }

/-- Whether an `Except` carries a success value. -/
def isOkE {α : Type} (e : Except String α) : Bool :=
  match e with
  | .ok _ => true
  | .error _ => false

/-! ### Generation supervisor (src/scripts/optimized_resource_server.py,
`OptimizedLlamaModel.generate_non_stream`, `_validate_response`,
`_generate_fallback_response`)

The model/tokenizer runtime calls are external: one attempt of the retry
loop either raises or yields the post-processed response string (the
`.strip()`ed text of line 1075 / 1125) together with its token count.
Timing fields (`generation_time`, `tokens_per_second`, `memory_usage`) of
the returned dictionary are wall-clock readings and are not modelled. -/

/-- Python string helpers, on `List Char`.  `isPrefixB pat s` is
`s.startswith(pat)` seen from the pattern side. -/
def isPrefixB : List Char → List Char → Bool
  | [], _ => true
  | _ :: _, [] => false
  | a :: as0, b :: bs => a == b && isPrefixB as0 bs

/-- `pat in s` (Python substring containment). -/
def isInfixB (pat : List Char) : List Char → Bool
  | [] => isPrefixB pat []
  | b :: bs => isPrefixB pat (b :: bs) || isInfixB pat bs

/-- `s.strip()`: drop whitespace from both ends. -/
def pyStrip (s : String) : String :=
  ⟨((s.data.dropWhile Char.isWhitespace).reverse.dropWhile Char.isWhitespace).reverse⟩

/-- `s.split(sep)` for a one-character separator. -/
def splitOnChar (c : Char) : List Char → List (List Char)
  | [] => [[]]
  | a :: t =>
    if a == c then [] :: splitOnChar c t
    else
      match splitOnChar c t with
      | [] => [[a]]
      | h :: rs => (a :: h) :: rs

/-- `s.replace(pat, repl)` for a nonempty pattern: replace every
non-overlapping occurrence left to right (fuel-indexed so that it is
structurally recursive; `fuel = s.length` always suffices because each
step consumes at least one character). -/
def pyReplaceAux (pat repl : List Char) : ℕ → List Char → List Char
  | 0, s => s
  | _ + 1, [] => []
  | fuel + 1, a :: t =>
    if pat.length > 0 && isPrefixB pat (a :: t) then
      repl ++ pyReplaceAux pat repl fuel ((a :: t).drop pat.length)
    else a :: pyReplaceAux pat repl fuel t

/-- `s.replace(pat, repl)` (the source only calls it with pattern `"User:"`). -/
def pyReplace (pat repl s : String) : String :=
  ⟨pyReplaceAux pat.data repl.data s.data.length s.data⟩

/-- `s.lower()`. -/
def pyLower (s : String) : String := ⟨s.data.map Char.toLower⟩

/-- `_validate_response`: reject empty/whitespace-only strings, the exact
problematic canned phrases, and the bare special tokens; anything else of
length ≥ 1 is accepted. -/
def validate_response (response : String) : Bool :=
  let rs := pyStrip response
  if rs.data.length < 1 then false
  else if rs == "" || rs == "I am [Your Name]"
       || rs == "I will be happy to help you"
       || rs == "Whether it\x27s a specific topic" then false
  else if rs == "<|eot_id|>" || rs == "<|end_of_text|>" then false
  else true

/-- `_generate_fallback_response`: keyword rules on the last `User:` line
of the prompt. -/
def generate_fallback_response (prompt : String) : String :=
  let lines := (splitOnChar '\n' prompt.data).map (fun l => String.mk l)
  let user_messages := lines.filter (fun l => isPrefixB "User:".data (pyStrip l).data)
  match user_messages.getLast? with
  | some last =>
    let m := pyStrip (pyReplace "User:" "" last)
    if isInfixB "hello".data (pyLower m).data || isInfixB "hi".data (pyLower m).data then
      "Hello! I\x27m here to help you. How can I assist you today?"
    else if isInfixB "?".data m.data then
      "I understand your question. Let me help you with that. Could you please provide more details?"
    else
      "I see what you\x27re asking about. Let me provide you with a helpful response. What specific information are you looking for?"
  | none => "I\x27m here to help! Please let me know what you\x27d like assistance with."

/-- One pass of the retry loop body: the runtime call either raises or
yields the stripped response text with its generated-token count. -/
inductive AttemptOutcome where
  | raised (msg : String)
  | produced (response : String) (tokens : ℕ)
  deriving DecidableEq

/-- The non-timing fields of the dictionary `generate_non_stream` returns
(the success dictionary carries no `fallback` key, modelled as `false`). -/
structure GenResult where
  response : String
  tokens_generated : ℕ
  attempts : ℕ
  fallback : Bool
  deriving DecidableEq

/-- `max_attempts = 3`. -/
def maxAttempts : ℕ := 3

/-- The retry loop of `generate_non_stream`, from attempt number `attempt`
with `remaining` loop iterations left (`remaining = maxAttempts - attempt`;
`remaining = 1` means this is the last attempt, where an invalid response
returns the fallback dictionary and an exception is re-raised).
`encode` stands for `self.tokenizer.encode`'s length. -/
def genLoop (encode : String → ℕ) (prompt : String)
    (oracle : ℕ → AttemptOutcome) : ℕ → ℕ → Except String GenResult
  | 0, _ => .error "generation loop entered with no attempts"
  | remaining + 1, attempt =>
    match oracle attempt with
    | .produced r tok =>
      if validate_response r then
        .ok { response := r, tokens_generated := tok,
              attempts := attempt + 1, fallback := false }
      else if remaining == 0 then
        .ok { response := generate_fallback_response prompt
              tokens_generated := encode (generate_fallback_response prompt)
              attempts := maxAttempts, fallback := true }
      else genLoop encode prompt oracle remaining (attempt + 1)
    | .raised e =>
      if remaining == 0 then .error e
      else genLoop encode prompt oracle remaining (attempt + 1)

/-- `generate_non_stream` after the model is loaded: up to `max_attempts`
attempts, validation-driven retry, guaranteed fallback dictionary when the
last attempt yields an invalid response, re-raise when the last attempt
raises. -/
def generate_non_stream (encode : String → ℕ) (prompt : String)
    (oracle : ℕ → AttemptOutcome) : Except String GenResult :=
  genLoop encode prompt oracle maxAttempts 0

/-! ### Adaptive loading (`OptimizedLlamaModel.load_model`, lines 509-589)

The underlying backend loads are external; `oracle n` is the outcome of
the n-th load the call performs.  A `LoadAttempt` records which format was
loaded on which device.  The state carries the fields the method mutates. -/

/-- Outcome of one underlying backend load. -/
inductive LoadOutcome where
  | success
  | failure (msg : String)
  deriving DecidableEq

/-- One underlying load: format ("gguf"/"pytorch") and target device. -/
structure LoadAttempt where
  kind : String
  device : String
  deriving DecidableEq

/-- The mutable fields of `OptimizedLlamaModel` that `load_model` touches. -/
structure ModelState where
  device : String
  modelType : String
  maxMemoryGb : ℚ
  useConservative : Bool
  isLoaded : Bool
  deriving DecidableEq

/-- Result of a `load_model` call: final state, the underlying loads
performed in order, and normal return vs. raised exception. -/
structure LoadResult where
  state : ModelState
  attempts : List LoadAttempt
  outcome : Except String Unit

/-- The `except` clause of `load_model`: only a pytorch-format model being
loaded on mps falls back — once — to cpu with budget
`min(8.0, available * 0.6)` and the conservative flag forced; everything
else re-raises, and a failing cpu fallback raises `RuntimeError` with no
further retry.  `modelTypeNow` is `self.model_type` at the time of the
exception (the gguf→pytorch rewrite of line 562 happens only after a
successful load, so it is always the detected type here). -/
def loadExceptHandler (st : ModelState) (modelTypeNow : String)
    (attemptsSoFar : List LoadAttempt) (e : String) (availableMemoryGb : ℚ)
    (oracle : ℕ → LoadOutcome) : LoadResult :=
  if modelTypeNow == "pytorch" && st.device == "mps" then
    let st2 := { st with device := "cpu"
                         maxMemoryGb := min 8 (availableMemoryGb * (3/5))
                         useConservative := true }
    match oracle 1 with
    | .success =>
      { state := { st2 with isLoaded := true }
        attempts := attemptsSoFar ++ [⟨"pytorch", "cpu"⟩]
        outcome := .ok () }
    | .failure _ =>
      { state := st2
        attempts := attemptsSoFar ++ [⟨"pytorch", "cpu"⟩]
        outcome := .error ("Model loading failed on both MPS and CPU: " ++ e) }
  else { state := st, attempts := attemptsSoFar, outcome := .error e }

/-- `load_model`: early return when already loaded; missing model path
raises; gguf loads via llama-cpp when available, else falls back to a
pytorch artifact on the same device when one exists, else raises
ImportError; pytorch loads directly.  Failures go to `loadExceptHandler`. -/
def load_model (modelPathExists : Bool) (st : ModelState)
    (llamaCppAvailable pytorchFallbackExists : Bool) (availableMemoryGb : ℚ)
    (oracle : ℕ → LoadOutcome) : LoadResult :=
  if st.isLoaded then { state := st, attempts := [], outcome := .ok () }
  else if !modelPathExists then
    { state := st, attempts := [], outcome := .error "Model not found" }
  else if st.modelType == "gguf" then
    if llamaCppAvailable then
      match oracle 0 with
      | .success =>
        { state := { st with isLoaded := true }
          attempts := [⟨"gguf", st.device⟩], outcome := .ok () }
      | .failure e =>
        loadExceptHandler st st.modelType [⟨"gguf", st.device⟩] e
          availableMemoryGb oracle
    else if pytorchFallbackExists then
      match oracle 0 with
      | .success =>
        { state := { st with isLoaded := true, modelType := "pytorch" }
          attempts := [⟨"pytorch", st.device⟩], outcome := .ok () }
      | .failure e =>
        loadExceptHandler st st.modelType [⟨"pytorch", st.device⟩] e
          availableMemoryGb oracle
    else
      loadExceptHandler st st.modelType []
        "llama-cpp-python not available and no PyTorch fallback found"
        availableMemoryGb oracle
  else
    match oracle 0 with
    | .success =>
      { state := { st with isLoaded := true }
        attempts := [⟨"pytorch", st.device⟩], outcome := .ok () }
    | .failure e =>
      loadExceptHandler st st.modelType [⟨"pytorch", st.device⟩] e
        availableMemoryGb oracle

/-! ## Theorems -/

/-- The clamp of line 439-440: the final allocation is at least the 2.0 GB floor. -/
lemma two_le_final (d : String) (st : SystemInfo) (ps : List ProcessInfo) :
    (2:ℚ) ≤ final_allocation_gb d st ps :=
  le_min (le_max_right _ _) (by norm_num)

/-- Claim C1: for every input state with positive total memory, every
available memory, cpu percentage and process list, and every selected
device, the computed allocation satisfies
`recommended_memory_gb ∈ [2, 16]` and `memory_fraction ∈ [0, 0.8]`. -/
theorem calculate_resource_allocation_bounds (d : String) (st : SystemInfo)
    (ps : List ProcessInfo) (h : 0 < st.total_memory_gb) :
    2 ≤ (calculate_resource_allocation d st ps).recommended_memory_gb ∧
    (calculate_resource_allocation d st ps).recommended_memory_gb ≤ 16 ∧
    0 ≤ (calculate_resource_allocation d st ps).memory_fraction ∧
    (calculate_resource_allocation d st ps).memory_fraction ≤ 4/5 := by
  refine ⟨?_, ?_, ?_, ?_⟩ <;> simp only [calculate_resource_allocation]
  · exact two_le_final d st ps
  · exact min_le_right _ _
  · exact le_min (div_nonneg (le_trans (by norm_num) (two_le_final d st ps)) h.le)
      (by norm_num)
  · exact min_le_right _ _

/-- Claim C1, instantiated: the bounds at a concrete 16 GB / 8 GB state on mps. -/
theorem calculate_resource_allocation_bounds_witness :
    0 < ((⟨"darwin", 8, 16, 8, 50, 100⟩ : SystemInfo)).total_memory_gb ∧
    (2 ≤ (calculate_resource_allocation "mps" ⟨"darwin", 8, 16, 8, 50, 100⟩ []).recommended_memory_gb ∧
     (calculate_resource_allocation "mps" ⟨"darwin", 8, 16, 8, 50, 100⟩ []).recommended_memory_gb ≤ 16 ∧
     0 ≤ (calculate_resource_allocation "mps" ⟨"darwin", 8, 16, 8, 50, 100⟩ []).memory_fraction ∧
     (calculate_resource_allocation "mps" ⟨"darwin", 8, 16, 8, 50, 100⟩ []).memory_fraction ≤ 4/5) :=
  ⟨by norm_num, calculate_resource_allocation_bounds "mps" _ [] (by norm_num)⟩

/-- Claim C10: the recommended allocation is clamped to at least 2.0 GB, so
the `final_allocation_gb < 2.0` disjunct of the conservative-mode check
never fires: `use_conservative` reduces to the remaining four triggers
(available < 2 GB, more than 8 resource-intensive processes, cpu > 95%,
mps selected with available < 3 GB). -/
theorem conservative_trigger_floor (d : String) (st : SystemInfo)
    (ps : List ProcessInfo) :
    2 ≤ (calculate_resource_allocation d st ps).recommended_memory_gb ∧
    (calculate_resource_allocation d st ps).use_conservative =
      (decide (st.available_memory_gb < 2)
       || decide ((ps.filter (fun p => p.is_gpu_intensive)).length > 8)
       || decide (st.cpu_percent > 95)
       || (d == "mps" && decide (st.available_memory_gb < 3))) := by
  constructor
  · simpa [calculate_resource_allocation] using two_le_final d st ps
  · simp only [calculate_resource_allocation, use_conservative_flag]
    rw [decide_eq_false (not_lt.mpr (two_le_final d st ps))]
    simp [Bool.or_false]

/-- Claim C4: device selection takes the first eligible device in the fixed
priority mps → cuda → rocm → cpu: a supported mps with
`available/total ≥ 0.25` wins regardless of the other devices, and a
supported mps with `available/total < 0.25` is skipped in favour of a
supported cuda whenever available memory is at least 6 GB. -/
theorem select_priority (st : SystemInfo) (dm : DeviceMap) :
    (dm.mps.supported = true → ¬(st.available_memory_gb / st.total_memory_gb < 1/4) →
      select_best_device st dm = "mps") ∧
    (dm.mps.supported = true → st.available_memory_gb / st.total_memory_gb < 1/4 →
      dm.cuda.supported = true → ¬(st.available_memory_gb < 6) →
      select_best_device st dm = "cuda") := by
  constructor
  · intro hm hp
    simp only [select_best_device, hm, if_true]
    rw [if_neg hp]
    split <;> rfl
  · intro hm hp hc ha
    simp only [select_best_device, selectAfterMps, hm, if_true]
    rw [if_pos hp]
    simp [hc, ha]

/-- Claim C4, instantiated: mps supported at fraction 0.5 beats a supported
cuda with 8 GB; mps supported at fraction 10/64 < 0.25 is skipped and a
supported cuda with 10 GB available is selected. -/
theorem select_priority_witness :
    select_best_device ⟨"darwin", 8, 16, 8, 50, 100⟩
      ⟨⟨"mps", "Apple M2 Pro", 12, "Pro", true, none⟩,
       ⟨"cuda", "NVIDIA RTX 3080", 8, "Pro", true, none⟩,
       ⟨"rocm", "AMD ROCm", 0, "Unsupported", false, some "ROCm not available"⟩,
       ⟨"cpu", "CPU (8 cores)", 8, "Standard", true, none⟩⟩ = "mps" ∧
    select_best_device ⟨"darwin", 8, 64, 10, 50, 100⟩
      ⟨⟨"mps", "Apple M2 Pro", 12, "Pro", true, none⟩,
       ⟨"cuda", "NVIDIA RTX 3090", 10, "Pro", true, none⟩,
       ⟨"rocm", "AMD ROCm", 0, "Unsupported", false, some "ROCm not available"⟩,
       ⟨"cpu", "CPU (8 cores)", 8, "Standard", true, none⟩⟩ = "cuda" :=
  ⟨(select_priority _ _).1 rfl (by norm_num),
   (select_priority _ _).2 rfl (by norm_num) rfl (by norm_num)⟩

/-- Claim C2 is false as stated: in the state total = 16 GB, available =
3 GB, cpu at 50%, no competing processes, mps supported, cuda and rocm
unsupported, the selection does reach cpu, but the allocation is 2.1 GB
(not clamped to the 2.0 floor), `use_conservative` is `false` (the
`final < 2.0` trigger cannot fire) and `batch_size` is 4, not 2. -/
theorem scenario_16_3_counterexample :
    select_best_device ⟨"darwin", 8, 16, 3, 50, 100⟩
        ⟨⟨"mps", "Apple Silicon", 12, "Standard", true, none⟩,
         ⟨"cuda", "NVIDIA CUDA", 0, "Unsupported", false, some "CUDA not available"⟩,
         ⟨"rocm", "AMD ROCm", 0, "Unsupported", false, some "ROCm not available"⟩,
         ⟨"cpu", "CPU (8 cores)", 8, "Standard", true, none⟩⟩ = "cpu" ∧
    (calculate_resource_allocation "cpu" ⟨"darwin", 8, 16, 3, 50, 100⟩ []).recommended_memory_gb = 21/10 ∧
    (calculate_resource_allocation "cpu" ⟨"darwin", 8, 16, 3, 50, 100⟩ []).use_conservative = false ∧
    (calculate_resource_allocation "cpu" ⟨"darwin", 8, 16, 3, 50, 100⟩ []).batch_size = 4 := by
  refine ⟨?_, ?_, ?_, ?_⟩
  · norm_num [select_best_device, selectAfterMps]
  all_goals
    norm_num [calculate_resource_allocation, use_conservative_flag, final_allocation_gb,
      safe_allocation_gb, base_allocation_gb, other_processes_memory_gb, min_def, max_def,
      (by decide : "cpu" ≠ "mps")]

/-- Claim C2 as amended: with total = 16 GB and available = 3 GB, a
supported mps is skipped (3/16 < 0.25) and, with cuda and rocm
unsupported, cpu is selected; the recommended allocation equals
`max (min 2.1 (12.8 − other-process GB)) 2` — at least the 2.0 GB floor,
reaching exactly 2.0 only under a sufficiently large other-process load —
and whenever cpu ≤ 95% and at most 8 resource-intensive processes run,
`use_conservative = false` and `batch_size = 4` (the claimed
`final allocation < 2.0 GB` trigger can never fire). -/
theorem scenario_16_3_amended (platform : String) (cores : ℕ) (cpuPct diskFree : ℚ)
    (ps : List ProcessInfo) (dm : DeviceMap) (st : SystemInfo)
    (hst : st = ⟨platform, cores, 16, 3, cpuPct, diskFree⟩)
    (hmps : dm.mps.supported = true) (hcuda : dm.cuda.supported = false)
    (hrocm : dm.rocm.supported = false)
    (hcpu : cpuPct ≤ 95) (hn : (ps.filter (fun p => p.is_gpu_intensive)).length ≤ 8) :
    select_best_device st dm = "cpu" ∧
    (calculate_resource_allocation (select_best_device st dm) st ps).recommended_memory_gb
      = max (min (21/10) (64/5 - other_processes_memory_gb ps)) 2 ∧
    2 ≤ (calculate_resource_allocation (select_best_device st dm) st ps).recommended_memory_gb ∧
    (calculate_resource_allocation (select_best_device st dm) st ps).use_conservative = false ∧
    (calculate_resource_allocation (select_best_device st dm) st ps).batch_size = 4 := by
  subst hst
  have hsel : select_best_device ⟨platform, cores, 16, 3, cpuPct, diskFree⟩ dm = "cpu" := by
    simp only [select_best_device, selectAfterMps, hmps, hcuda, hrocm, if_true]
    norm_num
  refine ⟨hsel, ?_⟩
  rw [hsel]
  have hfinal : final_allocation_gb "cpu" ⟨platform, cores, 16, 3, cpuPct, diskFree⟩ ps
      = max (min (21/10) (64/5 - other_processes_memory_gb ps)) 2 := by
    have hsafe : safe_allocation_gb "cpu" ⟨platform, cores, 16, 3, cpuPct, diskFree⟩ ps
        = min (21/10) (64/5 - other_processes_memory_gb ps) := by
      simp only [safe_allocation_gb, base_allocation_gb]
      norm_num [(by decide : "cpu" ≠ "mps")]
      congr 1
      ring
    rw [final_allocation_gb, hsafe]
    refine min_eq_left ?_
    refine max_le (le_trans (min_le_left _ _) (by norm_num)) (by norm_num)
  have h2 : (2:ℚ) ≤ final_allocation_gb "cpu" ⟨platform, cores, 16, 3, cpuPct, diskFree⟩ ps :=
    two_le_final _ _ _
  have huc : use_conservative_flag "cpu" ⟨platform, cores, 16, 3, cpuPct, diskFree⟩ ps = false := by
    simp only [use_conservative_flag]
    rw [decide_eq_false (not_lt.mpr h2)]
    rw [decide_eq_false (not_lt.mpr hn)]
    rw [decide_eq_false (not_lt.mpr hcpu)]
    norm_num
  refine ⟨?_, ?_, ?_, ?_⟩
  · simpa [calculate_resource_allocation] using hfinal
  · simpa [calculate_resource_allocation] using h2
  · simp [calculate_resource_allocation, huc]
  · simp [calculate_resource_allocation, huc]

/-- Claim C2 as amended, instantiated at a concrete detector state. -/
theorem scenario_16_3_amended_witness :
    select_best_device ⟨"darwin", 10, 16, 3, 40, 200⟩
        ⟨⟨"mps", "Apple M1", 11, "Standard", true, none⟩,
         ⟨"cuda", "NVIDIA CUDA", 0, "Unsupported", false, some "CUDA not available"⟩,
         ⟨"rocm", "AMD ROCm", 0, "Unsupported", false, some "ROCm not available"⟩,
         ⟨"cpu", "CPU (10 cores)", 8, "Standard", true, none⟩⟩ = "cpu" ∧
    (calculate_resource_allocation
        (select_best_device ⟨"darwin", 10, 16, 3, 40, 200⟩
          ⟨⟨"mps", "Apple M1", 11, "Standard", true, none⟩,
           ⟨"cuda", "NVIDIA CUDA", 0, "Unsupported", false, some "CUDA not available"⟩,
           ⟨"rocm", "AMD ROCm", 0, "Unsupported", false, some "ROCm not available"⟩,
           ⟨"cpu", "CPU (10 cores)", 8, "Standard", true, none⟩⟩)
        ⟨"darwin", 10, 16, 3, 40, 200⟩ []).recommended_memory_gb
      = max (min (21/10) (64/5 - other_processes_memory_gb [])) 2 ∧
    2 ≤ (calculate_resource_allocation
        (select_best_device ⟨"darwin", 10, 16, 3, 40, 200⟩
          ⟨⟨"mps", "Apple M1", 11, "Standard", true, none⟩,
           ⟨"cuda", "NVIDIA CUDA", 0, "Unsupported", false, some "CUDA not available"⟩,
           ⟨"rocm", "AMD ROCm", 0, "Unsupported", false, some "ROCm not available"⟩,
           ⟨"cpu", "CPU (10 cores)", 8, "Standard", true, none⟩⟩)
        ⟨"darwin", 10, 16, 3, 40, 200⟩ []).recommended_memory_gb ∧
    (calculate_resource_allocation
        (select_best_device ⟨"darwin", 10, 16, 3, 40, 200⟩
          ⟨⟨"mps", "Apple M1", 11, "Standard", true, none⟩,
           ⟨"cuda", "NVIDIA CUDA", 0, "Unsupported", false, some "CUDA not available"⟩,
           ⟨"rocm", "AMD ROCm", 0, "Unsupported", false, some "ROCm not available"⟩,
           ⟨"cpu", "CPU (10 cores)", 8, "Standard", true, none⟩⟩)
        ⟨"darwin", 10, 16, 3, 40, 200⟩ []).use_conservative = false ∧
    (calculate_resource_allocation
        (select_best_device ⟨"darwin", 10, 16, 3, 40, 200⟩
          ⟨⟨"mps", "Apple M1", 11, "Standard", true, none⟩,
           ⟨"cuda", "NVIDIA CUDA", 0, "Unsupported", false, some "CUDA not available"⟩,
           ⟨"rocm", "AMD ROCm", 0, "Unsupported", false, some "ROCm not available"⟩,
           ⟨"cpu", "CPU (10 cores)", 8, "Standard", true, none⟩⟩)
        ⟨"darwin", 10, 16, 3, 40, 200⟩ []).batch_size = 4 :=
  scenario_16_3_amended "darwin" 10 40 200 [] _ _ rfl rfl rfl rfl (by norm_num) (by norm_num)

/-- Claim C7: for a fixed (device, conservative) pair the threshold
adjustment is idempotent — re-running it yields the thresholds of a single
run — and the memory warning/critical thresholds are 4.0/2.0 GB for mps,
8.0/4.0 GB for cpu and 6.0/3.0 GB for any other device, each multiplied
by 1.2 in conservative mode. -/
theorem adjust_thresholds_idem :
    (∀ t d c, adjust_thresholds_for_device (adjust_thresholds_for_device t d c) d c
        = adjust_thresholds_for_device t d c) ∧
    (∀ t c, (adjust_thresholds_for_device t "mps" c).memory_warning
          = (if c then 4 * (6/5) else 4) ∧
        (adjust_thresholds_for_device t "mps" c).memory_critical
          = (if c then 2 * (6/5) else 2)) ∧
    (∀ t c, (adjust_thresholds_for_device t "cpu" c).memory_warning
          = (if c then 8 * (6/5) else 8) ∧
        (adjust_thresholds_for_device t "cpu" c).memory_critical
          = (if c then 4 * (6/5) else 4)) ∧
    (∀ t d c, d ≠ "mps" → d ≠ "cpu" →
      (adjust_thresholds_for_device t d c).memory_warning
          = (if c then 6 * (6/5) else 6) ∧
        (adjust_thresholds_for_device t d c).memory_critical
          = (if c then 3 * (6/5) else 3)) := by
  refine ⟨?_, ?_, ?_, ?_⟩
  · intro t d c
    cases h1 : d == "mps" <;> cases h2 : d == "cpu" <;> cases c <;>
      simp [adjust_thresholds_for_device, h1, h2]
  · intro t c
    cases c <;> simp [adjust_thresholds_for_device]
  · intro t c
    cases c <;> simp [adjust_thresholds_for_device]
  · intro t d c hd1 hd2
    have h1 : (d == "mps") = false := by rw [beq_eq_false_iff_ne]; exact hd1
    have h2 : (d == "cpu") = false := by rw [beq_eq_false_iff_ne]; exact hd2
    cases c <;> simp [adjust_thresholds_for_device, h1, h2]

/-- Claim C7, instantiated at the "other device" case (`cuda`,
conservative), from the constructor defaults. -/
theorem adjust_thresholds_idem_witness :
    (adjust_thresholds_for_device defaultThresholds "cuda" true).memory_warning
        = (if true then 6 * (6/5) else 6) ∧
    (adjust_thresholds_for_device defaultThresholds "cuda" true).memory_critical
        = (if true then 3 * (6/5) else 3) :=
  adjust_thresholds_idem.2.2.2 defaultThresholds "cuda" true (by decide) (by decide)

/-- Claim C9 is false as stated: a failing `psutil.virtual_memory()` read
propagates out of `_get_system_info` — no conservative default 0 is
substituted and the snapshot capture does not succeed. -/
theorem get_system_info_counterexample :
    get_system_info ⟨.error "virtual_memory read failed", .ok 10, .ok ⟨0⟩, .ok 8, "darwin"⟩
      = .error "virtual_memory read failed" := rfl

/-- Claim C9 as amended: capturing a `SystemInfo` succeeds exactly when
every individual metric read succeeds; a failing read propagates its error
instead of being replaced by a default. -/
theorem get_system_info_amended (r : ProbeReads) :
    isOkE (get_system_info r)
      = (isOkE r.virtual_memory && isOkE r.cpu_percent
         && isOkE r.disk_usage && isOkE r.cpu_count) := by
  rcases r with ⟨vm, cp, du, cc, pf⟩
  cases vm <;> cases cp <;> cases du <;> cases cc <;> rfl

/-- Invariant behind the alert cooldown: starting from any
`last_alert_time` state, the stored time for key `k` (if any) followed by
the emitted timestamps for `k` form a chain with gaps strictly above 30
seconds. -/
lemma runAlertsFrom_chain (k : String) :
    ∀ (events : List (ℚ × String)) (m : String → Option ℚ),
      List.Chain' (fun a b => 30 < b - a)
        ((m k).toList ++ keyTimes k (runAlertsFrom m events)) := by
  intro events
  induction events with
  | nil =>
    intro m
    cases hmk : m k <;> simp [runAlertsFrom, keyTimes, hmk]
  | cons e rest ih =>
    intro m
    by_cases he : shouldEmitAlert m e.1 e.2 = true
    · simp only [runAlertsFrom, he, if_true]
      by_cases hk : (e.2 == k) = true
      · have hek : e.2 = k := by rwa [beq_iff_eq] at hk
        subst hek
        have hupd : alertUpdate m e.1 e.2 e.2 = some e.1 := by
          simp [alertUpdate]
        have ihm := ih (alertUpdate m e.1 e.2)
        rw [hupd] at ihm
        simp only [Option.toList, List.singleton_append] at ihm
        have hkt : keyTimes e.2 (e :: runAlertsFrom (alertUpdate m e.1 e.2) rest)
            = e.1 :: keyTimes e.2 (runAlertsFrom (alertUpdate m e.1 e.2) rest) := by
          simp [keyTimes]
        rw [hkt]
        cases hmk : m e.2 with
        | none => simpa [hmk] using ihm
        | some t0 =>
          have hgap : 30 < e.1 - t0 := by
            rw [shouldEmitAlert, hmk] at he
            exact of_decide_eq_true he
          simp only [Option.toList, List.singleton_append, List.chain'_cons]
          exact ⟨hgap, ihm⟩
      · have hkf : (e.2 == k) = false := by
          cases h2 : e.2 == k with
          | false => rfl
          | true => exact absurd h2 hk
        have hk2 : (k == e.2) = false := by
          rw [beq_eq_false_iff_ne] at hkf ⊢
          intro hh
          exact hkf hh.symm
        have hupd : alertUpdate m e.1 e.2 k = m k := by simp [alertUpdate, hk2]
        have hkt : keyTimes k (e :: runAlertsFrom (alertUpdate m e.1 e.2) rest)
            = keyTimes k (runAlertsFrom (alertUpdate m e.1 e.2) rest) := by
          simp [keyTimes, hkf]
        rw [hkt]
        have ihm := ih (alertUpdate m e.1 e.2)
        rwa [hupd] at ihm
    · simp only [runAlertsFrom, he, if_false]
      have hef : shouldEmitAlert m e.1 e.2 = false := by
        cases h2 : shouldEmitAlert m e.1 e.2 with
        | false => rfl
        | true => exact absurd h2 he
      simp only [hef, Bool.false_eq_true, if_false]
      exact ih m

/-- Claim C8: for each alert key, consecutive emissions (history append +
callback delivery) of that key are at least 30 seconds apart; concretely,
firing `memory_critical` at t = 0, again 10 s later and again 31 s after
that emits exactly the first and the third firing. -/
theorem alert_cooldown :
    (∀ (events : List (ℚ × String)) (k : String),
      List.Chain' (fun a b => (30:ℚ) ≤ b - a) (keyTimes k (runAlerts events))) ∧
    runAlerts [((0:ℚ), "memory_critical"), (10, "memory_critical"), (41, "memory_critical")]
      = [((0:ℚ), "memory_critical"), (41, "memory_critical")] := by
  constructor
  · intro events k
    have h := runAlertsFrom_chain k events (fun _ => none)
    simp only [Option.toList, List.nil_append] at h
    exact List.Chain'.imp (fun a b hab => le_of_lt hab) h
  · norm_num [runAlerts, runAlertsFrom, shouldEmitAlert, alertUpdate]

/-- Unfolding of one loop iteration when the model call yields a response. -/
lemma genLoop_produced (encode : String → ℕ) (prompt : String)
    (oracle : ℕ → AttemptOutcome) (remaining attempt : ℕ) (r : String) (t : ℕ)
    (ho : oracle attempt = .produced r t) :
    genLoop encode prompt oracle (remaining + 1) attempt =
      (if validate_response r then
        .ok { response := r, tokens_generated := t,
              attempts := attempt + 1, fallback := false }
      else if remaining == 0 then
        .ok { response := generate_fallback_response prompt
              tokens_generated := encode (generate_fallback_response prompt)
              attempts := maxAttempts, fallback := true }
      else genLoop encode prompt oracle remaining (attempt + 1)) := by
  simp only [genLoop, ho]

/-- Unfolding of one loop iteration when the model call raises. -/
lemma genLoop_raised (encode : String → ℕ) (prompt : String)
    (oracle : ℕ → AttemptOutcome) (remaining attempt : ℕ) (e : String)
    (ho : oracle attempt = .raised e) :
    genLoop encode prompt oracle (remaining + 1) attempt =
      (if remaining == 0 then .error e
       else genLoop encode prompt oracle remaining (attempt + 1)) := by
  simp only [genLoop, ho]

/-- When every attempt yields a validator-rejected response, the call
returns the fallback dictionary. -/
lemma gns_all_rejected (encode : String → ℕ) (prompt : String)
    (oracle : ℕ → AttemptOutcome)
    (h : ∀ k, k < 3 → ∃ r t, oracle k = .produced r t ∧ validate_response r = false) :
    generate_non_stream encode prompt oracle =
      .ok { response := generate_fallback_response prompt
            tokens_generated := encode (generate_fallback_response prompt)
            attempts := maxAttempts, fallback := true } := by
  obtain ⟨r0, t0, ho0, hv0⟩ := h 0 (by norm_num)
  obtain ⟨r1, t1, ho1, hv1⟩ := h 1 (by norm_num)
  obtain ⟨r2, t2, ho2, hv2⟩ := h 2 (by norm_num)
  show genLoop encode prompt oracle (2 + 1) 0 = _
  rw [genLoop_produced encode prompt oracle 2 0 r0 t0 ho0,
    if_neg (by simp [hv0]), if_neg (by decide)]
  rw [show (2:ℕ) = 1 + 1 from rfl,
    genLoop_produced encode prompt oracle 1 1 r1 t1 ho1,
    if_neg (by simp [hv1]), if_neg (by decide)]
  rw [show (1:ℕ) = 0 + 1 from rfl,
    genLoop_produced encode prompt oracle 0 2 r2 t2 ho2,
    if_neg (by simp [hv2]), if_pos (by decide)]

/-- When no attempt raises, the call returns normally. -/
lemma gns_ok_of_produced (encode : String → ℕ) (prompt : String)
    (oracle : ℕ → AttemptOutcome)
    (h : ∀ k, k < 3 → ∃ r t, oracle k = .produced r t) :
    ∃ res, generate_non_stream encode prompt oracle = .ok res := by
  obtain ⟨r0, t0, ho0⟩ := h 0 (by norm_num)
  obtain ⟨r1, t1, ho1⟩ := h 1 (by norm_num)
  obtain ⟨r2, t2, ho2⟩ := h 2 (by norm_num)
  show ∃ res, genLoop encode prompt oracle (2 + 1) 0 = .ok res
  rw [genLoop_produced encode prompt oracle 2 0 r0 t0 ho0]
  by_cases v0 : validate_response r0 = true
  · exact ⟨_, by rw [if_pos v0]⟩
  · rw [if_neg v0, if_neg (by decide), show (2:ℕ) = 1 + 1 from rfl,
      genLoop_produced encode prompt oracle 1 1 r1 t1 ho1]
    by_cases v1 : validate_response r1 = true
    · exact ⟨_, by rw [if_pos v1]⟩
    · rw [if_neg v1, if_neg (by decide), show (1:ℕ) = 0 + 1 from rfl,
        genLoop_produced encode prompt oracle 0 2 r2 t2 ho2]
      by_cases v2 : validate_response r2 = true
      · exact ⟨_, by rw [if_pos v2]⟩
      · exact ⟨_, by rw [if_neg v2, if_pos (by decide)]⟩

/-- Claim C3 is false as stated: when the underlying model call raises on
every attempt, `generate_non_stream` re-raises the final exception
(line 1176) instead of returning a fallback result. -/
theorem generate_non_stream_counterexample :
    generate_non_stream (fun _ => 0) "hello"
      (fun _ => AttemptOutcome.raised "backend failure")
      = .error "backend failure" := rfl

/-- Claim C3 as amended: provided every attempt's model call completes
without raising, `generate_non_stream` always returns a result, and when
every produced response is rejected by the validator the result is the
templated fallback (keyword rules on the last `User:` utterance, embodied
in `generate_fallback_response`) with `fallback = true`; an exception on
the final attempt, however, propagates to the caller. -/
theorem generate_non_stream_amended (encode : String → ℕ) (prompt : String)
    (oracle : ℕ → AttemptOutcome)
    (h : ∀ k, k < 3 → ∃ r t, oracle k = .produced r t) :
    (∃ res, generate_non_stream encode prompt oracle = .ok res) ∧
    ((∀ k r t, k < 3 → oracle k = .produced r t → validate_response r = false) →
      generate_non_stream encode prompt oracle =
        .ok { response := generate_fallback_response prompt
              tokens_generated := encode (generate_fallback_response prompt)
              attempts := maxAttempts, fallback := true }) := by
  constructor
  · exact gns_ok_of_produced encode prompt oracle h
  · intro hrej
    refine gns_all_rejected encode prompt oracle ?_
    intro k hk
    obtain ⟨r, t, ho⟩ := h k hk
    exact ⟨r, t, ho, hrej k r t hk ho⟩

/-- Claim C3 as amended, instantiated: attempts that produce the empty
response yield the fallback dictionary. -/
theorem generate_non_stream_amended_witness :
    generate_non_stream (fun _ => 0) "User: hi"
        (fun _ => AttemptOutcome.produced "" 0)
      = .ok { response := generate_fallback_response "User: hi"
              tokens_generated := 0
              attempts := maxAttempts, fallback := true } :=
  (generate_non_stream_amended (fun _ => 0) "User: hi"
      (fun _ => AttemptOutcome.produced "" 0)
      (fun _ _ => ⟨"", 0, rfl⟩)).2
    (fun _ _ _ _ hp => by cases hp; rfl)

/-- Claim C5: when every generation attempt produces a response the
validator rejects, `generate_non_stream` returns the fallback dictionary
with `fallback = true` and `attempts = 3`. -/
theorem always_rejected_fallback (encode : String → ℕ) (prompt : String)
    (oracle : ℕ → AttemptOutcome)
    (h : ∀ k, k < 3 → ∃ r t, oracle k = .produced r t ∧ validate_response r = false) :
    generate_non_stream encode prompt oracle =
      .ok { response := generate_fallback_response prompt
            tokens_generated := encode (generate_fallback_response prompt)
            attempts := 3, fallback := true } :=
  gns_all_rejected encode prompt oracle h

/-- Claim C5, instantiated: the bare end-of-turn token is rejected on all
three attempts and the fallback dictionary is returned. -/
theorem always_rejected_fallback_witness :
    generate_non_stream (fun _ => 7) "User: hello?"
        (fun _ => AttemptOutcome.produced "<|eot_id|>" 1)
      = .ok { response := generate_fallback_response "User: hello?"
              tokens_generated := 7
              attempts := 3, fallback := true } :=
  always_rejected_fallback (fun _ => 7) "User: hello?"
    (fun _ => AttemptOutcome.produced "<|eot_id|>" 1)
    (fun _ _ => ⟨"<|eot_id|>", 1, rfl, rfl⟩)

/-- Claim C6 is false as stated: a failing load of a packed (gguf) model on
the mps backend propagates the exception directly — no cpu fallback load
is attempted (the handler requires `model_type == "pytorch"`). -/
theorem load_model_counterexample :
    (load_model true ⟨"mps", "gguf", 4, false, false⟩ true false 10
        (fun _ => LoadOutcome.failure "gguf load failed")).attempts
      = [⟨"gguf", "mps"⟩] ∧
    (load_model true ⟨"mps", "gguf", 4, false, false⟩ true false 10
        (fun _ => LoadOutcome.failure "gguf load failed")).outcome
      = .error "gguf load failed" ∧
    (load_model true ⟨"mps", "gguf", 4, false, false⟩ true false 10
        (fun _ => LoadOutcome.failure "gguf load failed")).state.device = "mps" := by
  refine ⟨?_, ?_, ?_⟩ <;> rfl

/-- Claim C6 as amended: when a full-precision (pytorch) model fails to
load on mps, `load_model` falls back exactly once to cpu with budget
`min 8 (0.6 × available)` and the conservative flag forced true; if the
cpu fallback succeeds the call returns loaded, and if it fails the failure
is fatal (`RuntimeError`) with no further load attempt — exactly two
underlying loads in either case.  (A gguf load failure on mps, by
contrast, propagates with no fallback.) -/
theorem load_model_mps_fallback (st : ModelState) (availableMemoryGb : ℚ)
    (oracle : ℕ → LoadOutcome)
    (llamaCppAvailable pytorchFallbackExists : Bool) (e : String)
    (hload : st.isLoaded = false) (hmt : st.modelType = "pytorch")
    (hdev : st.device = "mps") (h0 : oracle 0 = .failure e) :
    (load_model true st llamaCppAvailable pytorchFallbackExists
        availableMemoryGb oracle).attempts
      = [⟨"pytorch", "mps"⟩, ⟨"pytorch", "cpu"⟩] ∧
    (load_model true st llamaCppAvailable pytorchFallbackExists
        availableMemoryGb oracle).state.device = "cpu" ∧
    (load_model true st llamaCppAvailable pytorchFallbackExists
        availableMemoryGb oracle).state.maxMemoryGb
      = min 8 (availableMemoryGb * (3/5)) ∧
    (load_model true st llamaCppAvailable pytorchFallbackExists
        availableMemoryGb oracle).state.useConservative = true ∧
    (oracle 1 = .success →
      (load_model true st llamaCppAvailable pytorchFallbackExists
          availableMemoryGb oracle).outcome = .ok () ∧
      (load_model true st llamaCppAvailable pytorchFallbackExists
          availableMemoryGb oracle).state.isLoaded = true) ∧
    (∀ e2, oracle 1 = .failure e2 →
      (load_model true st llamaCppAvailable pytorchFallbackExists
          availableMemoryGb oracle).outcome
        = .error ("Model loading failed on both MPS and CPU: " ++ e) ∧
      (load_model true st llamaCppAvailable pytorchFallbackExists
          availableMemoryGb oracle).state.isLoaded = false) := by
  rcases st with ⟨dev, mt, mm, uc, il⟩
  simp only at hload hmt hdev
  subst hload hmt hdev
  have hres : load_model true ⟨"mps", "pytorch", mm, uc, false⟩ llamaCppAvailable
      pytorchFallbackExists availableMemoryGb oracle
      = loadExceptHandler ⟨"mps", "pytorch", mm, uc, false⟩ "pytorch"
          [⟨"pytorch", "mps"⟩] e availableMemoryGb oracle := by
    simp only [load_model, h0, (by decide : ("pytorch" == "gguf") = false),
      Bool.false_eq_true, if_false]
    rfl
  rw [hres]
  simp only [loadExceptHandler, (by decide : ("pytorch" == "pytorch") = true),
    (by decide : ("mps" == "mps") = true), Bool.and_self, if_true]
  cases h1 : oracle 1 with
  | success =>
    refine ⟨rfl, rfl, rfl, rfl, fun _ => ⟨rfl, rfl⟩, ?_⟩
    intro e2 he2
    exact LoadOutcome.noConfusion he2
  | failure e2 =>
    refine ⟨rfl, rfl, rfl, rfl, ?_, fun e3 he3 => ⟨rfl, rfl⟩⟩
    intro hs
    exact LoadOutcome.noConfusion hs

/-- Claim C6 as amended, instantiated: pytorch on mps fails once, the cpu
fallback succeeds, and the final state is loaded on cpu with budget
`min 8 6 = 6` GB and the conservative flag forced. -/
theorem load_model_mps_fallback_witness :
    (load_model true ⟨"mps", "pytorch", 4, false, false⟩ false false 10
        (fun k => if k == 0 then LoadOutcome.failure "mps load failed"
                  else LoadOutcome.success)).attempts
      = [⟨"pytorch", "mps"⟩, ⟨"pytorch", "cpu"⟩] ∧
    (load_model true ⟨"mps", "pytorch", 4, false, false⟩ false false 10
        (fun k => if k == 0 then LoadOutcome.failure "mps load failed"
                  else LoadOutcome.success)).state.device = "cpu" ∧
    (load_model true ⟨"mps", "pytorch", 4, false, false⟩ false false 10
        (fun k => if k == 0 then LoadOutcome.failure "mps load failed"
                  else LoadOutcome.success)).state.maxMemoryGb = 6 ∧
    (load_model true ⟨"mps", "pytorch", 4, false, false⟩ false false 10
        (fun k => if k == 0 then LoadOutcome.failure "mps load failed"
                  else LoadOutcome.success)).state.useConservative = true ∧
    (load_model true ⟨"mps", "pytorch", 4, false, false⟩ false false 10
        (fun k => if k == 0 then LoadOutcome.failure "mps load failed"
                  else LoadOutcome.success)).outcome = .ok () := by
  have h := load_model_mps_fallback ⟨"mps", "pytorch", 4, false, false⟩ 10
    (fun k => if k == 0 then LoadOutcome.failure "mps load failed"
              else LoadOutcome.success)
    false false "mps load failed" rfl rfl rfl rfl
  refine ⟨h.1, h.2.1, ?_, h.2.2.2.1, (h.2.2.2.2.1 rfl).1⟩
  rw [h.2.2.1]
  norm_num [min_def]
